import Mathlib

/-!
Verification of the veridian authentication and session-lifecycle core.

The Go backend (`backend/internal/auth`, `backend/internal/handlers`,
`backend/internal/middleware`, `backend/sql/queries`) and the TypeScript
session client (`frontend/src/lib/api-client.ts`,
`frontend/src/lib/token-manager.ts`) are shallowly embedded as executable
Lean definitions; theorems at the end settle the specification's claims
against them.
-/

namespace Veridian

set_option maxRecDepth 16384

/-! ## Password strength policy

From `backend/internal/auth/password.go`, `ValidatePasswordStrength`.
A Go string is modelled as its list of runes (`List Char`); Go's `len`
on a string is its UTF-8 byte length, modelled by `goLen`.  The function
returns `some errorMessage` for the first failing rule (the Go code
returns an `error`), `none` when the password passes.
-/

/-- Go `len(s)` for a string: the UTF-8 byte length. -/
def goLen (s : List Char) : Nat := (s.map Char.utf8Size).sum

/-- `char >= 'A' && char <= 'Z'` from the classification loop. -/
def isUpperChar (c : Char) : Bool := 'A' ≤ c && c ≤ 'Z'

/-- `char >= 'a' && char <= 'z'` from the classification loop. -/
def isLowerChar (c : Char) : Bool := 'a' ≤ c && c ≤ 'z'

/-- `char >= '0' && char <= '9'` from the classification loop. -/
def isNumberChar (c : Char) : Bool := '0' ≤ c && c ≤ '9'

/-- The punctuation ranges from the classification loop:
`'!'..'/'`, `':'..'@'`, `'['..'\x60'`, `'\x7b'..'~'`. -/
def isSpecialChar (c : Char) : Bool :=
  ('!' ≤ c && c ≤ '/') || (':' ≤ c && c ≤ '@') ||
  ('[' ≤ c && c ≤ '\x60') || ('\x7b' ≤ c && c ≤ '~')

def msgTooShort : String := "password must be at least 8 characters long"

def msgTooLong : String := "password must be no more than 128 characters long"

def msgNoUpper : String := "password must contain at least one uppercase letter"

def msgNoLower : String := "password must contain at least one lowercase letter"

def msgNoNumber : String := "password must contain at least one number"

def msgNoSpecial : String := "password must contain at least one special character"

/-- `ValidatePasswordStrength`: length bounds first, then the four
character-class flags, returning on the first violated rule. -/
def validatePasswordStrength (password : List Char) : Option String :=
  if goLen password < 8 then some msgTooShort
  else if goLen password > 128 then some msgTooLong
  else if !(password.any isUpperChar) then some msgNoUpper
  else if !(password.any isLowerChar) then some msgNoLower
  else if !(password.any isNumberChar) then some msgNoNumber
  else if !(password.any isSpecialChar) then some msgNoSpecial
  else none

/-- The specification's reading of the strength check: the ordered list of
*every* failing rule.  Used to compare the implemented check (which stops
at the first violation) against the spec's "returns every failing rule". -/
def strengthViolations (password : List Char) : List String :=
  (if goLen password < 8 then [msgTooShort] else []) ++
  (if goLen password > 128 then [msgTooLong] else []) ++
  (if !(password.any isUpperChar) then [msgNoUpper] else []) ++
  (if !(password.any isLowerChar) then [msgNoLower] else []) ++
  (if !(password.any isNumberChar) then [msgNoNumber] else []) ++
  (if !(password.any isSpecialChar) then [msgNoSpecial] else [])

/-! ## Password hashing and verification

From `backend/internal/auth/password.go`: `PasswordManager`,
`NewPasswordManager`, `HashPassword`, `VerifyPassword`, `parseHash`.

The two external primitives are passed in as function arguments:
`kdf` models `argon2.IDKey(password, salt, iterations, memory,
parallelism, keyLength)` and `b64e`/`b64d` model
`base64.RawStdEncoding`'s `EncodeToString`/`DecodeString` (bytes are
`Nat`s).  The random salt drawn by `HashPassword` becomes an explicit
argument.  Parse failures are collapsed to `none` (the Go code returns
distinct error values, none of which is needed by the claims settled
here).
-/

/-- The `PasswordManager` parameter struct. -/
structure PasswordManager where
  memory : Nat
  iterations : Nat
  parallelism : Nat
  saltLength : Nat
  keyLength : Nat
deriving Repr, DecidableEq

/-- `NewPasswordManager()`: m=65536, t=3, p=4, 16-byte salt, 32-byte key. -/
def newPasswordManager : PasswordManager :=
  { memory := 65536, iterations := 3, parallelism := 4
    saltLength := 16, keyLength := 32 }

/-- `argon2.Version` (19). -/
def argon2Version : Nat := 19

/-- `strings.Split(s, "$")` specialised to a one-character separator. -/
def splitOnChar (sep : Char) : List Char → List (List Char)
  | [] => [[]]
  | c :: cs =>
    if c = sep then [] :: splitOnChar sep cs
    else
      match splitOnChar sep cs with
      | [] => [[c]]
      | p :: ps => (c :: p) :: ps

/-- Decimal value of a digit run (for the `%d` conversions of `Sscanf`). -/
def digitsToNat (ds : List Char) : Nat :=
  ds.foldl (fun a c => 10 * a + (c.toNat - '0'.toNat)) 0

/-- `%d` of `fmt.Sscanf`: one-or-more leading digits, value plus rest. -/
def scanDecimal (s : List Char) : Option (Nat × List Char) :=
  match s.span (fun c => isNumberChar c) with
  | ([], _) => none
  | (ds, rest) => some (digitsToNat ds, rest)

/-- `fmt.Sscanf(parts[2], "v=%d", &version)`. -/
def parseVersion (s : List Char) : Option Nat :=
  match s with
  | 'v' :: '=' :: rest => (scanDecimal rest).map (fun r => r.1)
  | _ => none

/-- `fmt.Sscanf(parts[3], "m=%d,t=%d,p=%d", &memory, &iterations, &parallelism)`. -/
def parseParams (s : List Char) : Option (Nat × Nat × Nat) :=
  match s with
  | 'm' :: '=' :: rest =>
    match scanDecimal rest with
    | some (m, ',' :: 't' :: '=' :: rest2) =>
      match scanDecimal rest2 with
      | some (t, ',' :: 'p' :: '=' :: rest3) =>
        match scanDecimal rest3 with
        | some (p, _) => some (m, t, p)
        | none => none
      | _ => none
    | _ => none
  | _ => none

/-- `parseHash`: split on `$`, require exactly 6 parts, check algorithm
tag and argon2 version, scan the parameters, base64-decode salt and
digest. -/
def parseHash (b64d : List Char → Option (List Nat)) (encodedHash : List Char) :
    Option (Nat × Nat × Nat × List Nat × List Nat) :=
  match splitOnChar '$' encodedHash with
  | [_, p1, p2, p3, p4, p5] =>
    if p1 ≠ "argon2id".data then none
    else
      match parseVersion p2 with
      | none => none
      | some v =>
        if v ≠ argon2Version then none
        else
          match parseParams p3 with
          | none => none
          | some (m, t, par) =>
            match b64d p4, b64d p5 with
            | some salt, some hash => some (m, t, par, salt, hash)
            | _, _ => none
  | _ => none

/-- The `v=%d` segment rendered by `HashPassword`'s `Sprintf`. -/
def versionSegment : List Char := 'v' :: '=' :: Nat.toDigits 10 argon2Version

/-- The `m=%d,t=%d,p=%d` segment rendered by `HashPassword`'s `Sprintf`. -/
def paramsSegment (pm : PasswordManager) : List Char :=
  'm' :: '=' :: (Nat.toDigits 10 pm.memory ++
  ',' :: 't' :: '=' :: (Nat.toDigits 10 pm.iterations ++
  ',' :: 'p' :: '=' :: Nat.toDigits 10 pm.parallelism))

/-- `HashPassword`: derive the key with argon2id over a fresh salt and
render `Sprintf("$argon2id$v=%d$m=%d,t=%d,p=%d$%s$%s", ...)`. -/
def hashPassword
    (kdf : List Char → List Nat → Nat → Nat → Nat → Nat → List Nat)
    (b64e : List Nat → List Char)
    (pm : PasswordManager) (password : List Char) (salt : List Nat) : List Char :=
  let key := kdf password salt pm.iterations pm.memory pm.parallelism pm.keyLength
  '$' :: ("argon2id".data ++
  '$' :: (versionSegment ++
  '$' :: (paramsSegment pm ++
  '$' :: (b64e salt ++
  '$' :: b64e key))))

/-- `VerifyPassword`: parse the encoded hash, re-derive the key with the
*stored* parameters (but the manager's `keyLength`), compare in constant
time (`subtle.ConstantTimeCompare` returns 1 exactly on equality). -/
def verifyPassword
    (kdf : List Char → List Nat → Nat → Nat → Nat → Nat → List Nat)
    (b64d : List Char → Option (List Nat))
    (pm : PasswordManager) (password encodedHash : List Char) : Option Bool :=
  match parseHash b64d encodedHash with
  | none => none
  | some (m, t, par, salt, hash) =>
    some (decide (hash = kdf password salt t m par pm.keyLength))

/-! ## Token codec (JWT)

From `backend/internal/auth/jwt.go` together with the behaviour of
`github.com/golang-jwt/jwt/v5` on the structs it is given.  UUIDs are
modelled as `Nat`, instants as `Int` unix seconds.  The HMAC-SHA256
signature is modelled as the pair (secret key, signed payload): a
deterministic MAC, which is all the signature comparison relies on.

A consequence of the Go struct layout is embedded faithfully here:
`JWTClaims` declares its own `int64`/`string` fields with the JSON tags
`sub`, `email`, `iat`, `exp`, `nbf`, `iss`, `aud`, `jti` *and* embeds
`jwt.RegisteredClaims`, whose fields carry the same tags at depth one.
Go's `encoding/json` resolves the conflict in favour of the shallower
fields both when marshalling and when unmarshalling, so after
`ParseWithClaims` the embedded `RegisteredClaims` of the parsed
`JWTClaims` is the zero value.  The jwt/v5 validator reads `exp`/`nbf`
through the promoted `GetExpirationTime`/`GetNotBefore` methods, which
therefore return nil, and a nil `exp`/`nbf` is skipped (they are
optional by default).  Hence ParseWithClaims applies *no* time checks
to access tokens, while refresh tokens (parsed into a plain
`jwt.RegisteredClaims`) do get the `exp` and `nbf` checks.
-/

structure JWTManager where
  secretKey : String
  issuer : String
  audience : String
  accessTokenTTL : Int
  refreshTokenTTL : Int
deriving DecidableEq, Repr

/-- The serialized claim set of an access token: the depth-0 fields of
Go's `JWTClaims` (the embedded `RegisteredClaims` fields are shadowed,
see the section comment). -/
structure JWTClaims where
  userID : Nat
  email : String
  issuedAt : Int
  expiresAt : Int
  notBefore : Int
  issuer : String
  audience : String
  jti : String
deriving DecidableEq, Repr

/-- `jwt.RegisteredClaims`, the claim set of a refresh token. -/
structure RegisteredClaims where
  subject : Nat
  issuedAt : Int
  expiresAt : Int
  notBefore : Int
  issuer : String
  audience : List String
  id : String
deriving DecidableEq, Repr

inductive SigningMethod where
  | hs256
  | hs384
  | hs512
  | rs256
  | noAlg
deriving DecidableEq, Repr

/-- The keyfunc's `token.Method.(*jwt.SigningMethodHMAC)` type check. -/
def SigningMethod.isHMAC : SigningMethod → Bool
  | .hs256 | .hs384 | .hs512 => true
  | _ => false

/-- A compact JWS: signing method, claims, detached signature.  The
signature of a well-formed token is `(key, claims)` (see the section
comment on the MAC model). -/
structure SignedToken (α : Type) where
  method : SigningMethod
  claims : α
  sig : String × α
deriving DecidableEq, Repr

/-- `HMAC-SHA256(key, payload)`, modelled as the pair itself. -/
def hmacSign {α : Type} (key : String) (payload : α) : String × α := (key, payload)

/-- `GenerateAccessToken`: claims as built in jwt.go (the `jti` drawn
from `uuid.New()` is an explicit argument, the clock an explicit `now`),
signed with HS256.  Returns the token and `expiresAt`. -/
def generateAccessToken (j : JWTManager) (userID : Nat) (email : String)
    (now : Int) (jti : String) : SignedToken JWTClaims × Int :=
  let expiresAt := now + j.accessTokenTTL
  let claims : JWTClaims :=
    { userID := userID, email := email, issuedAt := now, expiresAt := expiresAt
      notBefore := now, issuer := j.issuer, audience := j.audience, jti := jti }
  ({ method := .hs256, claims := claims, sig := hmacSign j.secretKey claims }, expiresAt)

/-- `GenerateRefreshToken`: a plain `jwt.RegisteredClaims` token. -/
def generateRefreshToken (j : JWTManager) (userID : Nat)
    (now : Int) (jti : String) : SignedToken RegisteredClaims × Int :=
  let expiresAt := now + j.refreshTokenTTL
  let claims : RegisteredClaims :=
    { subject := userID, issuedAt := now, expiresAt := expiresAt
      notBefore := now, issuer := j.issuer, audience := [j.audience], id := jti }
  ({ method := .hs256, claims := claims, sig := hmacSign j.secretKey claims }, expiresAt)

/-- `jwt.ParseWithClaims` into `&JWTClaims{}`: keyfunc method check,
signature check — and no time checks, because the parsed token's
embedded `RegisteredClaims` is zero (see the section comment).  The
clock argument is kept to mirror the library's signature. -/
def parseWithClaimsAccess (j : JWTManager) (tok : SignedToken JWTClaims)
    (_now : Int) : Except String JWTClaims :=
  if !tok.method.isHMAC then .error "unexpected signing method"
  else if tok.sig ≠ hmacSign j.secretKey tok.claims then .error "token signature is invalid"
  else .ok tok.claims

/-- `ValidateAccessToken`: parse, then the handler's own audience and
issuer comparisons, each with its own error value. -/
def validateAccessToken (j : JWTManager) (tok : SignedToken JWTClaims)
    (now : Int) : Except String JWTClaims :=
  match parseWithClaimsAccess j tok now with
  | .error e => .error e
  | .ok claims =>
    if claims.audience ≠ j.audience then .error "invalid audience"
    else if claims.issuer ≠ j.issuer then .error "invalid issuer"
    else .ok claims

/-- `jwt.ParseWithClaims` into `&jwt.RegisteredClaims{}`: method check,
signature check, then the v5 claim validation — valid while
`now < exp` and once `nbf ≤ now`.  jwt/v5 joins all failed claim checks
into one error; the model returns the first in the validator's order. -/
def parseWithClaimsRefresh (j : JWTManager) (tok : SignedToken RegisteredClaims)
    (now : Int) : Except String RegisteredClaims :=
  if !tok.method.isHMAC then .error "unexpected signing method"
  else if tok.sig ≠ hmacSign j.secretKey tok.claims then .error "token signature is invalid"
  else if !(decide (now < tok.claims.expiresAt)) then .error "token has invalid claims: token is expired"
  else if !(decide (tok.claims.notBefore ≤ now)) then .error "token has invalid claims: token is not valid yet"
  else .ok tok.claims

/-- `ValidateRefreshToken`: parse, then
`len(aud) == 0 || aud[0] != j.audience` and the issuer comparison. -/
def validateRefreshToken (j : JWTManager) (tok : SignedToken RegisteredClaims)
    (now : Int) : Except String RegisteredClaims :=
  match parseWithClaimsRefresh j tok now with
  | .error e => .error e
  | .ok claims =>
    match claims.audience with
    | [] => .error "invalid audience"
    | a :: _ =>
      if a ≠ j.audience then .error "invalid audience"
      else if claims.issuer ≠ j.issuer then .error "invalid issuer"
      else .ok claims

/-- `ExtractUserIDFromRefreshToken`: validate, then read the subject
(modelled directly as the account id, so `uuid.Parse` cannot fail). -/
def extractUserIDFromRefreshToken (j : JWTManager) (tok : SignedToken RegisteredClaims)
    (now : Int) : Except String Nat :=
  match validateRefreshToken j tok now with
  | .error e => .error e
  | .ok claims => .ok claims.subject

/-- Outcome of the Auth Gate for one request. -/
inductive GateResult where
  | reject (status : Nat) (msg : String)
  | pass (userID : Nat) (email : String) (jti : String)
deriving DecidableEq, Repr

/-- The token-validation branch of `JWTAuthMiddleware`
(`backend/internal/middleware/auth.go`): once a Bearer token string has
been extracted, every `ValidateAccessToken` failure is answered with the
single 401 body `"Invalid or expired token"`; success attaches
`{user_id, user_email, jwt_id}` to the request context. -/
def jwtAuthMiddlewareValidate (j : JWTManager) (tok : SignedToken JWTClaims)
    (now : Int) : GateResult :=
  match validateAccessToken j tok now with
  | .error _ => .reject 401 "Invalid or expired token"
  | .ok claims => .pass claims.userID claims.email claims.jti

/-! ## Session store

From `backend/sql/queries/refresh_tokens.sql` (sqlc queries over the
`refresh_tokens` table) — the table is modelled as a list of records,
`now()` as an explicit clock argument.
-/

structure RefreshTokenRecord where
  id : Nat
  userId : Nat
  tokenHash : String
  expiresAt : Int
  createdAt : Int
  lastUsed : Option Int
  isRevoked : Bool
  userAgent : Option String
  ipAddress : Option String
deriving DecidableEq, Repr

/-- `GetRefreshToken`: the row with this hash that is
`is_revoked = FALSE AND expires_at > now()`; absent rows and
revoked/expired rows are alike `not-found`. -/
def getRefreshToken (db : List RefreshTokenRecord) (hash : String) (now : Int) :
    Option RefreshTokenRecord :=
  db.find? (fun r => r.tokenHash == hash && !r.isRevoked && decide (now < r.expiresAt))

/-- `CreateRefreshToken`: insert a fresh row (id generated by the
store, `created_at` defaulted to `now()`, not revoked). -/
def createRefreshToken (db : List RefreshTokenRecord) (newId : Nat) (userId : Nat)
    (tokenHash : String) (expiresAt : Int) (userAgent : Option String)
    (ipAddress : Option String) (now : Int) : List RefreshTokenRecord :=
  db ++ [{ id := newId, userId := userId, tokenHash := tokenHash
           expiresAt := expiresAt, createdAt := now, lastUsed := none
           isRevoked := false, userAgent := userAgent, ipAddress := ipAddress }]

/-- `UpdateRefreshTokenLastUsed`: `SET last_used = now() WHERE id = $1`. -/
def updateRefreshTokenLastUsed (db : List RefreshTokenRecord) (recId : Nat)
    (now : Int) : List RefreshTokenRecord :=
  db.map (fun r => if r.id == recId then { r with lastUsed := some now } else r)

/-- `RevokeRefreshToken`: `SET is_revoked = TRUE WHERE token_hash = $1`. -/
def revokeRefreshToken (db : List RefreshTokenRecord) (hash : String) :
    List RefreshTokenRecord :=
  db.map (fun r => if r.tokenHash == hash then { r with isRevoked := true } else r)

/-- `RevokeAllUserRefreshTokens`: `SET is_revoked = TRUE WHERE user_id = $1`. -/
def revokeAllUserRefreshTokens (db : List RefreshTokenRecord) (userId : Nat) :
    List RefreshTokenRecord :=
  db.map (fun r => if r.userId == userId then { r with isRevoked := true } else r)

/-! ## Auth handlers

From the handlers file (`src/unnamed/part_027`, package `handlers`):
`RefreshTokenHandler` and `ChangePasswordHandler`.  The request is taken
already JSON-bound (the bind-failure 400 branch carries no claim), the
clock, the freshly drawn uuids and the request metadata are explicit
arguments, and `hex(sha256(tokenString))` is an argument function `h`
on (wire encodings of) refresh tokens.
-/

structure User where
  id : Nat
  email : String
  hashedPassword : List Char
  emailVerified : Bool
  isActive : Bool
deriving DecidableEq, Repr

/-- `GetUserByID` from the users query file (`src/unnamed/part_017`):
`SELECT * FROM users WHERE id = $1 AND is_active = TRUE` — an inactive
account is functionally absent. -/
def getUserByID (users : List User) (userID : Nat) : Option User :=
  users.find? (fun u => u.id == userID && u.isActive)

/-- `UpdateUserPassword` from the users query file
(`src/unnamed/part_017`): `UPDATE users SET hashed_password = $2
WHERE id = $1 AND is_active = TRUE RETURNING *` — a `:one` query, so it
errors (no rows) when no active row with this id exists. -/
def updateUserPassword (users : List User) (userID : Nat) (digest : List Char) :
    Option (List User) :=
  if users.any (fun u => u.id == userID && u.isActive) then
    some (users.map (fun u =>
      if u.id == userID && u.isActive then { u with hashedPassword := digest } else u))
  else none

/-- The slice of application state the auth handlers touch. -/
structure AppState where
  refreshTokens : List RefreshTokenRecord
  users : List User
deriving DecidableEq, Repr

/-- The HTTP outcome of `RefreshTokenHandler`. -/
inductive RefreshResult where
  | unauthorized (msg : String)
  | serverError (msg : String)
  | ok (accessToken : SignedToken JWTClaims) (refreshToken : SignedToken RegisteredClaims)
       (expiresAt : Int)
deriving DecidableEq, Repr

/-- `RefreshTokenHandler`, `POST /auth/refresh`:
crypto-validate the presented token (401 `"Invalid refresh token"` on
failure); look its hash up in the store (401
`"Invalid or expired refresh token"` when functionally absent); load the
user; mint a new access+refresh pair; revoke the old row; insert the new
row; touch `last_used` on the old row. -/
def refreshTokenHandler
    (h : SignedToken RegisteredClaims → String)
    (j : JWTManager) (st : AppState) (tok : SignedToken RegisteredClaims)
    (now : Int) (newAccessJti newRefreshJti : String) (newRecId : Nat)
    (userAgent : Option String) (ip : Option String) :
    RefreshResult × AppState :=
  match extractUserIDFromRefreshToken j tok now with
  | .error _ => (.unauthorized "Invalid refresh token", st)
  | .ok userID =>
    let tokenHashStr := h tok
    match getRefreshToken st.refreshTokens tokenHashStr now with
    | none => (.unauthorized "Invalid or expired refresh token", st)
    | some storedToken =>
      match getUserByID st.users userID with
      | none => (.unauthorized "User not found", st)
      | some user =>
        let ga := generateAccessToken j user.id user.email now newAccessJti
        let gr := generateRefreshToken j user.id now newRefreshJti
        let db1 := revokeRefreshToken st.refreshTokens tokenHashStr
        let db2 := createRefreshToken db1 newRecId user.id (h gr.1) gr.2 userAgent ip now
        let db3 := updateRefreshTokenLastUsed db2 storedToken.id now
        (.ok ga.1 gr.1 ga.2, { st with refreshTokens := db3 })

/-- The HTTP outcome of `ChangePasswordHandler`. -/
inductive ChangePasswordResult where
  | notFound (msg : String)
  | unauthorized (msg : String)
  | badRequest (msg : String)
  | serverError (msg : String)
  | ok (msg : String)
deriving DecidableEq, Repr

/-- `ChangePasswordHandler`, `POST /auth/change-password` (behind the
Auth Gate, so the caller's account id comes from the request context):
load the user; verify the current password; strength-check the new one;
hash it (fresh salt as argument); update the stored digest; revoke every
refresh-token row of the account. -/
def changePasswordHandler
    (kdf : List Char → List Nat → Nat → Nat → Nat → Nat → List Nat)
    (b64e : List Nat → List Char) (b64d : List Char → Option (List Nat))
    (userID : Nat) (st : AppState)
    (currentPassword newPassword : List Char) (salt : List Nat) :
    ChangePasswordResult × AppState :=
  match getUserByID st.users userID with
  | none => (.notFound "User not found", st)
  | some user =>
    match verifyPassword kdf b64d newPasswordManager currentPassword user.hashedPassword with
    | some true =>
      match validatePasswordStrength newPassword with
      | some msg => (.badRequest msg, st)
      | none =>
        let newDigest := hashPassword kdf b64e newPasswordManager newPassword salt
        match updateUserPassword st.users userID newDigest with
        | none => (.serverError "Failed to update password", st)
        | some users' =>
          let db' := revokeAllUserRefreshTokens st.refreshTokens userID
          (.ok "Password changed successfully. Please log in again.",
           { refreshTokens := db', users := users' })
    | _ => (.unauthorized "Current password is incorrect", st)

/-! ## Session client

From `frontend/src/lib/api-client.ts` (`UnifiedApiClient.request`,
`handleUnauthorized`, `ensureValidToken`, `refreshTokens`,
`performTokenRefresh`, `handleErrorResponse`, `clearAuthState`) and
`frontend/src/lib/storage/token-storage.ts`.

The browser environment is explicit: `NetEnv.resp n` is the response to
the client's n-th `fetch`, and `NetEnv.needsRefresh tok` is the value of
`isTokenExpired(tok) || isTokenExpiringSoon(tok, 300)` at the moment of
the call.  Every response carries the token-pair fields
`performTokenRefresh` reads (`access_token`, `refresh_token`); only
successful refresh responses make them meaningful.  A client run is
sequential (one caller), so the single-flight `isRefreshing` /
`refreshPromise` dance inside `refreshTokens` reduces to calling
`performTokenRefresh` once; the concurrent guard itself is modelled
separately below.
-/

/-- `AuthErrorCode` from `frontend/src/lib/api-client.ts`. -/
inductive AuthErrorCode where
  | unauthorized
  | validationError
  | userNotFound
  | serverError
  | tokenExpired
  | refreshFailed
deriving DecidableEq, Repr

/-- The token pair held by `LocalStorageTokenStorage`. -/
structure ClientStorage where
  accessToken : Option String
  refreshToken : Option String
deriving DecidableEq, Repr

/-- `tokenStorage.setTokens`. -/
def setTokens (_s : ClientStorage) (a r : String) : ClientStorage :=
  { accessToken := some a, refreshToken := some r }

/-- `tokenStorage.clearTokens` (= `clearAuthState`). -/
def clearTokens (_s : ClientStorage) : ClientStorage :=
  { accessToken := none, refreshToken := none }

/-- `tokenStorage.hasValidTokens`: both entries present. -/
def hasValidTokens (s : ClientStorage) : Bool :=
  s.accessToken.isSome && s.refreshToken.isSome

/-- One HTTP response as the client consumes it. -/
structure NetResponse where
  status : Nat
  accessToken : String
  refreshToken : String
deriving DecidableEq, Repr

/-- `response.ok`: status in 200..299. -/
def NetResponse.isOk (r : NetResponse) : Bool :=
  decide (200 ≤ r.status) && decide (r.status < 300)

/-- The environment of one client run (see section comment). -/
structure NetEnv where
  resp : Nat → NetResponse
  needsRefresh : String → Bool

/-- Client-run state: the storage plus the number of fetches issued. -/
structure ClientState where
  storage : ClientStorage
  fetches : Nat
deriving DecidableEq, Repr

/-- `fetch`: consume the next response from the environment. -/
def clientFetch (env : NetEnv) (s : ClientState) : NetResponse × ClientState :=
  (env.resp s.fetches, { s with fetches := s.fetches + 1 })

/-- `handleErrorResponse`: map a non-ok status to an `AuthError` code. -/
def handleErrorResponse (r : NetResponse) : AuthErrorCode :=
  if r.status == 401 then .unauthorized
  else if r.status == 422 then .validationError
  else if r.status == 404 then .userNotFound
  else .serverError

/-- `request(endpoint, { requireAuth: false })`: no token handling; a
401 lands in `handleErrorResponse` (the retry branch requires
`requireAuth`).  Returns the parsed response on ok statuses. -/
def requestNoAuth (env : NetEnv) (s : ClientState) :
    Except AuthErrorCode NetResponse × ClientState :=
  let (r, s1) := clientFetch env s
  if r.isOk then (.ok r, s1) else (.error (handleErrorResponse r), s1)

/-- `performTokenRefresh`: read the stored refresh token (failing with
`REFRESH_FAILED` when absent), `POST /auth/refresh` without auth, store
the returned pair. -/
def performTokenRefresh (env : NetEnv) (s : ClientState) :
    Except AuthErrorCode Unit × ClientState :=
  match s.storage.refreshToken with
  | none => (.error .refreshFailed, s)
  | some _ =>
    match requestNoAuth env s with
    | (.ok r, s1) => (.ok (), { s1 with storage := setTokens s1.storage r.accessToken r.refreshToken })
    | (.error e, s1) => (.error e, s1)

/-- `refreshTokens` in a sequential run: the in-flight guard is vacuous,
leaving one `performTokenRefresh` (see section comment). -/
def refreshTokens (env : NetEnv) (s : ClientState) :
    Except AuthErrorCode Unit × ClientState :=
  performTokenRefresh env s

/-- `handleUnauthorized`: without a stored refresh token clear the
session and fail `TOKEN_EXPIRED`; otherwise refresh, and on a refresh
failure clear the session and fail `REFRESH_FAILED`. -/
def handleUnauthorized (env : NetEnv) (s : ClientState) :
    Except AuthErrorCode Unit × ClientState :=
  match s.storage.refreshToken with
  | none => (.error .tokenExpired, { s with storage := clearTokens s.storage })
  | some _ =>
    match refreshTokens env s with
    | (.ok _, s1) => (.ok (), s1)
    | (.error _, s1) => (.error .refreshFailed, { s1 with storage := clearTokens s1.storage })

/-- `ensureValidToken`: both tokens must be present (else
`TOKEN_EXPIRED`); if the access token is expired or expiring within the
5-minute buffer, refresh before the call. -/
def ensureValidToken (env : NetEnv) (s : ClientState) :
    Except AuthErrorCode Unit × ClientState :=
  match s.storage.accessToken, s.storage.refreshToken with
  | some a, some _ =>
    if env.needsRefresh a then refreshTokens env s else (.ok (), s)
  | _, _ => (.error .tokenExpired, s)

/-- `request(endpoint, { requireAuth: true })`: proactively refresh via
`ensureValidToken`, fetch, and on a 401 run `handleUnauthorized` once
and retry the request with `requireAuth: false`. -/
def requestAuth (env : NetEnv) (s : ClientState) :
    Except AuthErrorCode NetResponse × ClientState :=
  match ensureValidToken env s with
  | (.error e, s1) => (.error e, s1)
  | (.ok _, s1) =>
    let (r, s2) := clientFetch env s1
    if r.status == 401 then
      match handleUnauthorized env s2 with
      | (.error e, s3) => (.error e, s3)
      | (.ok _, s3) => requestNoAuth env s3
    else if r.isOk then (.ok r, s2)
    else (.error (handleErrorResponse r), s2)

/-! ## Single-flight refresh guard

The concurrent guard shared by `UnifiedApiClient.refreshTokens` and
`TokenManager.ensureValidToken` (`src/unnamed/part_005`):

    if (this.isRefreshing && this.refreshPromise) return this.refreshPromise;
    this.isRefreshing = true;
    this.refreshPromise = this.performTokenRefresh();

JavaScript's event loop runs this section atomically (there is no
`await` between the check and the assignments), so a run with N
concurrent callers is a sequence of N atomic `sfEnter` steps on the
shared state; each step yields the promise that caller will await.
Promises are identified by creation index; starting one issues one
network refresh call.
-/

structure SFState where
  isRefreshing : Bool
  refreshPromise : Option Nat
  nextPromiseId : Nat
  networkCalls : Nat
deriving DecidableEq, Repr

/-- One caller reaching the guard: join the in-flight promise, or start
a new refresh (one network call) and publish its promise. -/
def sfEnter (st : SFState) : Nat × SFState :=
  match st.isRefreshing, st.refreshPromise with
  | true, some p => (p, st)
  | _, _ =>
    (st.nextPromiseId,
     { isRefreshing := true, refreshPromise := some st.nextPromiseId
       nextPromiseId := st.nextPromiseId + 1
       networkCalls := st.networkCalls + 1 })

/-- The `finally` block once the in-flight refresh settles. -/
def sfComplete (st : SFState) : SFState :=
  { st with isRefreshing := false, refreshPromise := none }

/-- N callers reaching the guard before the in-flight refresh settles;
returns the promise each one awaits. -/
def sfEnterN : Nat → SFState → List Nat × SFState
  | 0, st => ([], st)
  | n + 1, st =>
    let (p, st1) := sfEnter st
    let (ps, st2) := sfEnterN n st1
    (p :: ps, st2)

/-! ## Concrete instances

Closed instantiations used by counterexamples and witnesses: a sample
`JWTManager`, sample tokens, stores and client environments, and simple
executable stand-ins for the external primitives (argon2, base64,
sha256) that satisfy the contracts the theorems assume of them.
-/

/-- HTTP status of a `RefreshResult` (the `c.JSON(status, ...)` calls). -/
def refreshResultStatus : RefreshResult → Nat
  | .unauthorized _ => 401
  | .serverError _ => 500
  | .ok _ _ _ => 200

/-- A stand-in KDF: collision-free in the password, as the theorems
assume of `argon2.IDKey`. -/
def kdfW (password : List Char) (_salt : List Nat)
    (_t _m _p _kl : Nat) : List Nat :=
  password.map Char.toNat

/-- A stand-in byte-to-text encoding (never emits `'$'` for the inputs
used here). -/
def b64eW (bs : List Nat) : List Char :=
  bs.map (fun b => Char.ofNat (b + 256))

/-- Decoder matching `b64eW`. -/
def b64dW (cs : List Char) : Option (List Nat) :=
  some (cs.map (fun c => c.toNat - 256))

def jDemo : JWTManager :=
  { secretKey := "secret", issuer := "veridian-api"
    audience := "veridian-frontend", accessTokenTTL := 900
    refreshTokenTTL := 604800 }

/-- A stand-in for `hex(sha256(tokenString))`: token hashes are keyed by
the token's unique `jti`, which is collision-free for the tokens used
here. -/
def hDemo (t : SignedToken RegisteredClaims) : String := t.claims.id

def user7 : User :=
  { id := 7, email := "user7@example.com", hashedPassword := []
    emailVerified := true, isActive := true }

/-- An access token minted at time 0 (expiry 900). -/
def tokDemo : SignedToken JWTClaims :=
  (generateAccessToken jDemo 7 "user7@example.com" 0 "jti-a0").1

/-- An access token whose audience does not match `jDemo`'s. -/
def tokAudBad : SignedToken JWTClaims :=
  (generateAccessToken { jDemo with audience := "other-aud" } 7 "user7@example.com" 0 "jti-a1").1

/-- An access token whose issuer does not match `jDemo`'s. -/
def tokIssBad : SignedToken JWTClaims :=
  (generateAccessToken { jDemo with issuer := "other-iss" } 7 "user7@example.com" 0 "jti-a2").1

/-- A refresh token minted at time 0 by `jDemo`. -/
def rtok0 : SignedToken RegisteredClaims :=
  (generateRefreshToken jDemo 7 0 "jr0").1

/-- A refresh token signed under a different secret. -/
def rtokBadSig : SignedToken RegisteredClaims :=
  (generateRefreshToken { jDemo with secretKey := "other-secret" } 7 0 "jr9").1

/-- The store row persisted for `rtok0` at login. -/
def rec0 : RefreshTokenRecord :=
  { id := 1, userId := 7, tokenHash := "jr0", expiresAt := 604800
    createdAt := 0, lastUsed := none, isRevoked := false
    userAgent := none, ipAddress := none }

def stDemo : AppState := { refreshTokens := [rec0], users := [user7] }

def stEmpty : AppState := { refreshTokens := [], users := [user7] }

def pwA : List Char := "abcdefgh".data

def pwB : List Char := "abcdefg1!".data

/-- Account whose digest was produced by the modelled `HashPassword`
(password `OldPass123!`, salt `[0, 1]`). -/
def user8 : User :=
  { id := 8, email := "user8@example.com"
    hashedPassword := hashPassword kdfW b64eW newPasswordManager "OldPass123!".data [0, 1]
    emailVerified := true, isActive := true }

def rec8 : RefreshTokenRecord :=
  { id := 2, userId := 8, tokenHash := "jr8", expiresAt := 604800
    createdAt := 0, lastUsed := none, isRevoked := false
    userAgent := none, ipAddress := none }

def stChange : AppState := { refreshTokens := [rec8], users := [user8] }

/-- Client run: original call 401, refresh succeeds (200, new pair),
retried call 401 again; no proactive refresh needed. -/
def envRetry401 : NetEnv :=
  { resp := fun n =>
      if n == 0 then { status := 401, accessToken := "x", refreshToken := "x" }
      else if n == 1 then { status := 200, accessToken := "a1", refreshToken := "r1" }
      else { status := 401, accessToken := "x", refreshToken := "x" }
    needsRefresh := fun _ => false }

/-- Client run: original call 401, the refresh call itself fails (500). -/
def envRefreshFail : NetEnv :=
  { resp := fun n =>
      if n == 0 then { status := 401, accessToken := "x", refreshToken := "x" }
      else { status := 500, accessToken := "x", refreshToken := "x" }
    needsRefresh := fun _ => false }

/-- Client state holding a stored pair, no fetches issued yet. -/
def s0Client : ClientState :=
  { storage := { accessToken := some "a0", refreshToken := some "r0" }, fetches := 0 }

/-- Idle single-flight guard state. -/
def sfIdle : SFState :=
  { isRefreshing := false, refreshPromise := none, nextPromiseId := 0, networkCalls := 0 }

/-! ## Helper lemmas -/

theorem splitOnChar_not_mem (sep : Char) (xs : List Char) (h : sep ∉ xs) :
    splitOnChar sep xs = [xs] := by
  induction xs with
  | nil => rfl
  | cons c cs ih =>
    rw [List.mem_cons, not_or] at h
    unfold splitOnChar
    rw [if_neg (fun hc => h.1 hc.symm), ih h.2]

theorem splitOnChar_append (sep : Char) (xs ys : List Char) (h : sep ∉ xs) :
    splitOnChar sep (xs ++ sep :: ys) = xs :: splitOnChar sep ys := by
  induction xs with
  | nil =>
    show splitOnChar sep (sep :: ys) = [] :: splitOnChar sep ys
    conv_lhs => unfold splitOnChar
    rw [if_pos rfl]
  | cons c cs ih =>
    rw [List.mem_cons, not_or] at h
    rw [List.cons_append]
    conv_lhs => unfold splitOnChar
    rw [if_neg (fun hc => h.1 hc.symm), ih h.2]

theorem getRefreshToken_revoke_self (db : List RefreshTokenRecord)
    (hash : String) (now : Int) :
    getRefreshToken (revokeRefreshToken db hash) hash now = none := by
  unfold getRefreshToken revokeRefreshToken
  rw [List.find?_eq_none]
  intro x hx
  rw [List.mem_map] at hx
  obtain ⟨r, _, rfl⟩ := hx
  by_cases h : r.tokenHash == hash
  · simp [h]
  · simp [h]

theorem getRefreshToken_append_none (db : List RefreshTokenRecord)
    (rec : RefreshTokenRecord) (hash : String) (now : Int)
    (h1 : getRefreshToken db hash now = none) (h2 : rec.tokenHash ≠ hash) :
    getRefreshToken (db ++ [rec]) hash now = none := by
  unfold getRefreshToken at h1 ⊢
  rw [List.find?_eq_none] at h1 ⊢
  intro x hx
  rcases List.mem_append.mp hx with hx | hx
  · exact h1 x hx
  · rw [List.mem_singleton] at hx
    subst hx
    simp [h2]

theorem getRefreshToken_touch_none (db : List RefreshTokenRecord)
    (recId : Nat) (t : Int) (hash : String) (now : Int)
    (h : getRefreshToken db hash now = none) :
    getRefreshToken (updateRefreshTokenLastUsed db recId t) hash now = none := by
  unfold getRefreshToken at h ⊢
  unfold updateRefreshTokenLastUsed
  rw [List.find?_eq_none] at h ⊢
  intro x hx
  rw [List.mem_map] at hx
  obtain ⟨r, hr, rfl⟩ := hx
  have hpred := h r hr
  by_cases hid : r.id == recId
  · rw [if_pos hid]
    exact hpred
  · rw [if_neg hid]
    exact hpred

theorem getRefreshToken_revokeAll_none (db : List RefreshTokenRecord)
    (uid : Nat) (hash : String) (now : Int)
    (h : ∀ r ∈ db, r.tokenHash = hash → r.userId = uid) :
    getRefreshToken (revokeAllUserRefreshTokens db uid) hash now = none := by
  unfold getRefreshToken revokeAllUserRefreshTokens
  rw [List.find?_eq_none]
  intro x hx
  rw [List.mem_map] at hx
  obtain ⟨r, hr, rfl⟩ := hx
  by_cases hu : r.userId == uid
  · rw [if_pos hu]
    simp
  · rw [if_neg hu]
    by_cases hh : r.tokenHash == hash
    · exact absurd (h r hr (by simpa using hh)) (by simpa using hu)
    · simp [hh]

theorem sfEnterN_inflight (m : Nat) (p : Nat) (st : SFState)
    (h1 : st.isRefreshing = true) (h2 : st.refreshPromise = some p) :
    sfEnterN m st = (List.replicate m p, st) := by
  induction m with
  | zero => rfl
  | succ k ih =>
    have he : sfEnter st = (p, st) := by
      unfold sfEnter
      rw [h1, h2]
    unfold sfEnterN
    rw [he]
    show (match sfEnterN k st with | (ps, st2) => (p :: ps, st2)) = (List.replicate (k + 1) p, st)
    rw [ih]
    rfl

theorem updateUserPassword_of_found (users : List User) (uid : Nat) (user : User)
    (digest : List Char) (h : getUserByID users uid = some user) :
    updateUserPassword users uid digest =
      some (users.map (fun u =>
        if u.id == uid && u.isActive then { u with hashedPassword := digest } else u)) := by
  unfold getUserByID at h
  have hmem : user ∈ users := List.mem_of_find?_eq_some h
  have hp := List.find?_some h
  unfold updateUserPassword
  rw [if_pos]
  rw [List.any_eq_true]
  exact ⟨user, hmem, hp⟩

theorem charToNat_injective : Function.Injective Char.toNat := by
  intro a b h
  exact Char.eq_of_val_eq (UInt32.eq_of_val_eq (Fin.eq_of_val_eq h))

theorem kdfW_inj (p q : List Char) (salt : List Nat)
    (h : kdfW p salt 3 65536 4 32 = kdfW q salt 3 65536 4 32) : p = q :=
  List.map_injective_iff.mpr charToNat_injective h

/-! ## Claim theorems -/

/-- C3 counterexample: on `pwA = "abcdefgh"` three rules fail
(uppercase, number, special character), but the strength check reports
only the uppercase rule — the number violation is failing yet absent
from the result, so the check does **not** return every failing rule. -/
theorem strength_not_all_rules_counterexample :
    strengthViolations pwA = [msgNoUpper, msgNoNumber, msgNoSpecial] ∧
    validatePasswordStrength pwA = some msgNoUpper ∧
    msgNoUpper ≠ msgNoNumber := by
  refine ⟨by decide, by decide, by decide⟩

/-- C3 (amended): for every password, the strength check returns exactly
the *first* failing rule in check order (minimum length, maximum length,
uppercase, lowercase, number, special character), not the full list. -/
theorem strength_reports_first_violation (password : List Char) :
    validatePasswordStrength password = (strengthViolations password).head? := by
  unfold validatePasswordStrength strengthViolations
  split_ifs <;> rfl

/-- C4 counterexample: an audience-mismatched access token and an
issuer-mismatched access token (both correctly signed) produce two
*different* error values from `ValidateAccessToken`, so the returned
error does reveal which check failed. -/
theorem validate_error_reveals_check_counterexample :
    validateAccessToken jDemo tokAudBad 0 = .error "invalid audience" ∧
    validateAccessToken jDemo tokIssBad 0 = .error "invalid issuer" ∧
    ("invalid audience" : String) ≠ "invalid issuer" := by
  refine ⟨rfl, rfl, by decide⟩

/-- C4 (amended): `validateAccess`/`validateRefresh` themselves return
check-specific error values; the uniform client-visible error lives one
layer up — the Auth Gate answers every validation failure, whatever its
cause, with the single 401 body "Invalid or expired token". -/
theorem authGate_uniform_invalid_token (j : JWTManager)
    (tok : SignedToken JWTClaims) (now : Int) (e : String)
    (h : validateAccessToken j tok now = .error e) :
    jwtAuthMiddlewareValidate j tok now = .reject 401 "Invalid or expired token" := by
  unfold jwtAuthMiddlewareValidate
  rw [h]

theorem authGate_uniform_invalid_token_witness :
    jwtAuthMiddlewareValidate jDemo tokAudBad 0 = .reject 401 "Invalid or expired token" :=
  authGate_uniform_invalid_token jDemo tokAudBad 0 "invalid audience" rfl

/-- C6: the code at the claim's failing input.  `tokDemo` is minted at
time 0 with the 900-second access TTL, yet `ValidateAccessToken` still
*accepts* it at time 1000000 — far past `expiresAt = 900` — and returns
its claims (same subject and email).  The expiry check never runs
because the parsed token's shadowed `RegisteredClaims` carries no `exp`
(see the Token codec section comment), contradicting the claim's
"rejects with a token-expired error". -/
theorem validateAccess_accepts_expired_token :
    tokDemo.claims.expiresAt = 900 ∧
    ((900 : Int) < 1000000) ∧
    validateAccessToken jDemo tokDemo 1000000 = .ok tokDemo.claims ∧
    tokDemo.claims.userID = 7 ∧
    tokDemo.claims.email = "user7@example.com" := by
  refine ⟨rfl, by decide, rfl, rfl, rfl⟩

theorem parseHash_hashPassword
    (kdf : List Char → List Nat → Nat → Nat → Nat → Nat → List Nat)
    (b64e : List Nat → List Char) (b64d : List Char → Option (List Nat))
    (password : List Char) (salt : List Nat)
    (hds : b64d (b64e salt) = some salt)
    (hdk : b64d (b64e (kdf password salt 3 65536 4 32)) = some (kdf password salt 3 65536 4 32))
    (hns : '$' ∉ b64e salt)
    (hnk : '$' ∉ b64e (kdf password salt 3 65536 4 32)) :
    parseHash b64d (hashPassword kdf b64e newPasswordManager password salt) =
      some (65536, 3, 4, salt, kdf password salt 3 65536 4 32) := by
  have hsplit : splitOnChar '$' (hashPassword kdf b64e newPasswordManager password salt) =
      [[], "argon2id".data, versionSegment, paramsSegment newPasswordManager,
        b64e salt, b64e (kdf password salt 3 65536 4 32)] := by
    show splitOnChar '$' ('$' :: ("argon2id".data ++
        '$' :: (versionSegment ++
        '$' :: (paramsSegment newPasswordManager ++
        '$' :: (b64e salt ++
        '$' :: b64e (kdf password salt 3 65536 4 32)))))) = _
    conv_lhs => unfold splitOnChar
    rw [if_pos rfl]
    rw [splitOnChar_append '$' "argon2id".data _ (by decide)]
    rw [splitOnChar_append '$' versionSegment _ (by decide)]
    rw [splitOnChar_append '$' (paramsSegment newPasswordManager) _ (by decide)]
    rw [splitOnChar_append '$' (b64e salt) _ hns]
    rw [splitOnChar_not_mem '$' _ hnk]
  have hv : parseVersion versionSegment = some argon2Version := by decide
  have hpar : parseParams (paramsSegment newPasswordManager) = some (65536, 3, 4) := by decide
  unfold parseHash
  rw [hsplit]
  simp [hv, hpar, hds, hdk]

/-- C5: `verify` after `hash` accepts exactly the hashed password and
rejects any other one — stated for the external argon2 KDF assumed
collision-free in the password (hypothesis `hinj`), and an encoding
`b64e`/`b64d` that round-trips on the salt and the derived key and
never emits the `$` separator, as `base64.RawStdEncoding` does. -/
theorem passwordHashVerify_roundtrip
    (kdf : List Char → List Nat → Nat → Nat → Nat → Nat → List Nat)
    (b64e : List Nat → List Char) (b64d : List Char → Option (List Nat))
    (password q : List Char) (salt : List Nat)
    (hinj : ∀ p1 p2 : List Char,
      kdf p1 salt 3 65536 4 32 = kdf p2 salt 3 65536 4 32 → p1 = p2)
    (_hstrong : validatePasswordStrength password = none)
    (hds : b64d (b64e salt) = some salt)
    (hdk : b64d (b64e (kdf password salt 3 65536 4 32)) = some (kdf password salt 3 65536 4 32))
    (hns : '$' ∉ b64e salt)
    (hnk : '$' ∉ b64e (kdf password salt 3 65536 4 32))
    (hq : q ≠ password) :
    verifyPassword kdf b64d newPasswordManager password
      (hashPassword kdf b64e newPasswordManager password salt) = some true ∧
    verifyPassword kdf b64d newPasswordManager q
      (hashPassword kdf b64e newPasswordManager password salt) = some false := by
  have hp := parseHash_hashPassword kdf b64e b64d password salt hds hdk hns hnk
  constructor
  · unfold verifyPassword
    rw [hp]
    simp [show newPasswordManager.keyLength = 32 from rfl]
  · unfold verifyPassword
    rw [hp]
    have hne : ¬(kdf password salt 3 65536 4 32 = kdf q salt 3 65536 4 32) :=
      fun hEq => hq ((hinj password q hEq).symm)
    simp [show newPasswordManager.keyLength = 32 from rfl, hne]

theorem passwordHashVerify_roundtrip_witness :
    verifyPassword kdfW b64dW newPasswordManager "StrongPass123!".data
      (hashPassword kdfW b64eW newPasswordManager "StrongPass123!".data [5, 6]) = some true ∧
    verifyPassword kdfW b64dW newPasswordManager "WrongPass1!".data
      (hashPassword kdfW b64eW newPasswordManager "StrongPass123!".data [5, 6]) = some false :=
  passwordHashVerify_roundtrip kdfW b64eW b64dW "StrongPass123!".data "WrongPass1!".data [5, 6]
    (fun p1 p2 h => kdfW_inj p1 p2 [5, 6] h)
    (by decide) (by decide) (by decide) (by decide) (by decide) (by decide)

/-- C1: refresh rotation is single-use.  For a cryptographically valid
refresh token with a live (not revoked, not expired) store record and
an existing account, the refresh handler succeeds and returns a freshly
minted access+refresh pair; afterwards the presented token's hash is
functionally absent from the store at *every* instant (its record is
revoked; the newly created record has a different hash `hfresh`, as
sha256 of the distinct new token string), so presenting the same token
to any subsequent refresh is answered 401 "Invalid or expired refresh
token". -/
theorem refreshRotation_singleUse
    (h : SignedToken RegisteredClaims → String) (j : JWTManager) (st : AppState)
    (tok : SignedToken RegisteredClaims) (now now2 : Int)
    (aj rj aj2 rj2 : String) (rid rid2 : Nat) (ua ip ua2 ip2 : Option String)
    (uid uid2 : Nat) (user : User) (rec : RefreshTokenRecord)
    (hcrypto : extractUserIDFromRefreshToken j tok now = .ok uid)
    (hfound : getRefreshToken st.refreshTokens (h tok) now = some rec)
    (huser : getUserByID st.users uid = some user)
    (hfresh : h (generateRefreshToken j user.id now rj).1 ≠ h tok)
    (hcrypto2 : extractUserIDFromRefreshToken j tok now2 = .ok uid2) :
    (refreshTokenHandler h j st tok now aj rj rid ua ip).1 =
      .ok (generateAccessToken j user.id user.email now aj).1
          (generateRefreshToken j user.id now rj).1
          (generateAccessToken j user.id user.email now aj).2 ∧
    (∀ t, getRefreshToken
        (refreshTokenHandler h j st tok now aj rj rid ua ip).2.refreshTokens (h tok) t = none) ∧
    (refreshTokenHandler h j (refreshTokenHandler h j st tok now aj rj rid ua ip).2
        tok now2 aj2 rj2 rid2 ua2 ip2).1 =
      .unauthorized "Invalid or expired refresh token" := by
  have hnone : ∀ t : Int,
      getRefreshToken
        (updateRefreshTokenLastUsed
          (createRefreshToken (revokeRefreshToken st.refreshTokens (h tok)) rid user.id
            (h (generateRefreshToken j user.id now rj).1)
            (generateRefreshToken j user.id now rj).2 ua ip now)
          rec.id now) (h tok) t = none := by
    intro t
    apply getRefreshToken_touch_none
    unfold createRefreshToken
    apply getRefreshToken_append_none
    · exact getRefreshToken_revoke_self st.refreshTokens (h tok) t
    · exact hfresh
  refine ⟨?_, ?_, ?_⟩
  · simp only [refreshTokenHandler, hcrypto, hfound, huser]
  · intro t
    simp only [refreshTokenHandler, hcrypto, hfound, huser]
    exact hnone t
  · simp only [refreshTokenHandler, hcrypto, hfound, huser, hcrypto2, hnone]

theorem refreshRotation_singleUse_witness :
    (refreshTokenHandler hDemo jDemo stDemo rtok0 1 "ja1" "jr1" 3 none none).1 =
      .ok (generateAccessToken jDemo user7.id user7.email 1 "ja1").1
          (generateRefreshToken jDemo user7.id 1 "jr1").1
          (generateAccessToken jDemo user7.id user7.email 1 "ja1").2 ∧
    getRefreshToken
      (refreshTokenHandler hDemo jDemo stDemo rtok0 1 "ja1" "jr1" 3 none none).2.refreshTokens
      (hDemo rtok0) 99 = none ∧
    (refreshTokenHandler hDemo jDemo
        (refreshTokenHandler hDemo jDemo stDemo rtok0 1 "ja1" "jr1" 3 none none).2
        rtok0 2 "ja2" "jr2" 4 none none).1 =
      .unauthorized "Invalid or expired refresh token" :=
  have h := refreshRotation_singleUse hDemo jDemo stDemo rtok0 1 2 "ja1" "jr1" "ja2" "jr2"
    3 4 none none none none 7 7 user7 rec0 rfl rfl rfl (by decide) rfl
  ⟨h.1, h.2.1 99, h.2.2⟩

/-- C2 counterexample: a refresh request whose token fails cryptographic
validation is answered with body "Invalid refresh token", while one
whose token is valid but absent from the session store is answered with
body "Invalid or expired refresh token" — the two client-visible
responses are *not* identical. -/
theorem refreshErrors_differ_counterexample :
    (refreshTokenHandler hDemo jDemo stEmpty rtokBadSig 1 "ja" "jr" 9 none none).1 =
      .unauthorized "Invalid refresh token" ∧
    (refreshTokenHandler hDemo jDemo stEmpty rtok0 1 "ja" "jr" 9 none none).1 =
      .unauthorized "Invalid or expired refresh token" ∧
    ("Invalid refresh token" : String) ≠ "Invalid or expired refresh token" := by
  refine ⟨rfl, rfl, by decide⟩

/-- C2 (amended): cryptographic failure and store-lookup failure both
produce a 401 response and leave the application state untouched, so
they share the HTTP status class; the response *bodies* however differ
("Invalid refresh token" vs "Invalid or expired refresh token"), so the
two cases are distinguishable to the caller. -/
theorem refreshFailure_status_uniform
    (h : SignedToken RegisteredClaims → String) (j : JWTManager) (st : AppState)
    (tok : SignedToken RegisteredClaims) (now : Int) (aj rj : String) (rid : Nat)
    (ua ip : Option String)
    (hfail : (∃ e, extractUserIDFromRefreshToken j tok now = .error e) ∨
             (∃ uid, extractUserIDFromRefreshToken j tok now = .ok uid ∧
                getRefreshToken st.refreshTokens (h tok) now = none)) :
    refreshResultStatus (refreshTokenHandler h j st tok now aj rj rid ua ip).1 = 401 ∧
    (refreshTokenHandler h j st tok now aj rj rid ua ip).2 = st := by
  rcases hfail with ⟨e, he⟩ | ⟨uid, hok, hnone⟩
  · simp only [refreshTokenHandler, he]
    exact ⟨rfl, trivial⟩
  · simp only [refreshTokenHandler, hok, hnone]
    exact ⟨rfl, trivial⟩

theorem refreshFailure_status_uniform_witness :
    refreshResultStatus (refreshTokenHandler hDemo jDemo stEmpty rtokBadSig 1 "ja" "jr" 9 none none).1 = 401 ∧
    (refreshTokenHandler hDemo jDemo stEmpty rtokBadSig 1 "ja" "jr" 9 none none).2 = stEmpty :=
  refreshFailure_status_uniform hDemo jDemo stEmpty rtokBadSig 1 "ja" "jr" 9 none none
    (Or.inl ⟨"token signature is invalid", rfl⟩)

/-- C7: after `revokeAll(accountId)`, the lookup of any token hash all
of whose store records belong to that account — in particular the hash
of every refresh token previously valid for it — returns not-found. -/
theorem revokeAll_invalidates_store
    (db : List RefreshTokenRecord) (uid : Nat) (hash : String) (now : Int)
    (hexcl : ∀ r ∈ db, r.tokenHash = hash → r.userId = uid) :
    getRefreshToken (revokeAllUserRefreshTokens db uid) hash now = none :=
  getRefreshToken_revokeAll_none db uid hash now hexcl

theorem revokeAll_invalidates_store_witness :
    getRefreshToken (revokeAllUserRefreshTokens [rec0] 7) "jr0" 2 = none :=
  revokeAll_invalidates_store [rec0] 7 "jr0" 2 (by decide)

/-- C10: a change-password request that passes authentication, current-
password verification and the strength check succeeds with the 200
message, and afterwards *every* refresh-token record of the account —
the one backing the calling session included — is revoked: the store
lookup fails for any hash whose records all belong to the account. -/
theorem changePassword_revokes_all_sessions
    (kdf : List Char → List Nat → Nat → Nat → Nat → Nat → List Nat)
    (b64e : List Nat → List Char) (b64d : List Char → Option (List Nat))
    (uid : Nat) (st : AppState) (curPw newPw : List Char) (salt : List Nat)
    (user : User)
    (huser : getUserByID st.users uid = some user)
    (hverify : verifyPassword kdf b64d newPasswordManager curPw user.hashedPassword = some true)
    (hstrong : validatePasswordStrength newPw = none) :
    (changePasswordHandler kdf b64e b64d uid st curPw newPw salt).1 =
      .ok "Password changed successfully. Please log in again." ∧
    ∀ hash now, (∀ r ∈ st.refreshTokens, r.tokenHash = hash → r.userId = uid) →
      getRefreshToken
        (changePasswordHandler kdf b64e b64d uid st curPw newPw salt).2.refreshTokens
        hash now = none := by
  have hupd := updateUserPassword_of_found st.users uid user
    (hashPassword kdf b64e newPasswordManager newPw salt) huser
  constructor
  · simp only [changePasswordHandler, huser, hverify, hstrong, hupd]
  · intro hash now hexcl
    simp only [changePasswordHandler, huser, hverify, hstrong, hupd]
    exact getRefreshToken_revokeAll_none st.refreshTokens uid hash now hexcl

theorem changePassword_revokes_all_sessions_witness :
    (changePasswordHandler kdfW b64eW b64dW 8 stChange "OldPass123!".data "NewPass456?".data [2, 3]).1 =
      .ok "Password changed successfully. Please log in again." ∧
    getRefreshToken
      (changePasswordHandler kdfW b64eW b64dW 8 stChange "OldPass123!".data "NewPass456?".data [2, 3]).2.refreshTokens
      "jr8" 99 = none :=
  have h := changePassword_revokes_all_sessions kdfW b64eW b64dW 8 stChange
    "OldPass123!".data "NewPass456?".data [2, 3] user8 rfl (by decide) (by decide)
  ⟨h.1, h.2 "jr8" 99 (by decide)⟩

/-- C8 counterexample: with a stored session, a 401 on the original
call, a *successful* refresh, and a 401 again on the retried call, the
client surfaces a terminal UNAUTHORIZED error — but the local session is
NOT cleared: the storage still holds the (refreshed) credential pair. -/
theorem retryFailure_keeps_session_counterexample :
    requestAuth envRetry401 s0Client =
      (.error .unauthorized,
       { storage := { accessToken := some "a1", refreshToken := some "r1" }, fetches := 3 }) ∧
    hasValidTokens (requestAuth envRetry401 s0Client).2.storage = true := by
  refine ⟨rfl, rfl⟩

/-- C8 (amended): on a 401 to an authenticated call the client performs
exactly one refresh-and-retry cycle (three fetches in total: original,
refresh, retry) and a second 401 on the retry is terminal — an
UNAUTHORIZED error with no further refresh or retry — but the stored
pair (as updated by the successful refresh) is retained rather than
cleared; the session is cleared only when the refresh step itself
fails, which surfaces REFRESH_FAILED after two fetches. -/
theorem singleRetry_terminal
    (env env2 : NetEnv) (a r a2 r2 : String)
    (hnr : env.needsRefresh a = false)
    (h0 : (env.resp 0).status = 401)
    (h1 : env.resp 1 = { status := 200, accessToken := a2, refreshToken := r2 })
    (h2 : (env.resp 2).status = 401)
    (hnr2 : env2.needsRefresh a = false)
    (g0 : (env2.resp 0).status = 401)
    (g1 : (env2.resp 1).status = 500) :
    requestAuth env { storage := { accessToken := some a, refreshToken := some r }, fetches := 0 } =
      (.error .unauthorized,
       { storage := { accessToken := some a2, refreshToken := some r2 }, fetches := 3 }) ∧
    requestAuth env2 { storage := { accessToken := some a, refreshToken := some r }, fetches := 0 } =
      (.error .refreshFailed,
       { storage := { accessToken := none, refreshToken := none }, fetches := 2 }) := by
  constructor
  · simp [requestAuth, ensureValidToken, hnr, clientFetch, handleUnauthorized,
      refreshTokens, performTokenRefresh, requestNoAuth, NetResponse.isOk,
      handleErrorResponse, setTokens, clearTokens, h0, h1, h2]
  · simp [requestAuth, ensureValidToken, hnr2, clientFetch, handleUnauthorized,
      refreshTokens, performTokenRefresh, requestNoAuth, NetResponse.isOk,
      handleErrorResponse, setTokens, clearTokens, g0, g1]

theorem singleRetry_terminal_witness :
    requestAuth envRetry401 { storage := { accessToken := some "a0", refreshToken := some "r0" }, fetches := 0 } =
      (.error .unauthorized,
       { storage := { accessToken := some "a1", refreshToken := some "r1" }, fetches := 3 }) ∧
    requestAuth envRefreshFail { storage := { accessToken := some "a0", refreshToken := some "r0" }, fetches := 0 } =
      (.error .refreshFailed,
       { storage := { accessToken := none, refreshToken := none }, fetches := 2 }) :=
  singleRetry_terminal envRetry401 envRefreshFail "a0" "r0" "a1" "r1"
    rfl rfl rfl rfl rfl rfl rfl

/-- C9: the single-flight guard.  From an idle guard state, N ≥ 1
callers reaching the refresh guard before the in-flight refresh settles
all receive the *same* promise (the first caller's), and exactly one
network refresh call is issued — so all N observe the identical
resulting credential pair or the identical failure, whatever that
promise resolves to. -/
theorem singleFlight_one_network_call
    (st : SFState) (n : Nat) (hidle : st.isRefreshing = false) (hn : 0 < n) :
    (sfEnterN n st).1 = List.replicate n st.nextPromiseId ∧
    (sfEnterN n st).2.networkCalls = st.networkCalls + 1 := by
  obtain ⟨m, rfl⟩ : ∃ m, n = m + 1 := ⟨n - 1, (Nat.succ_pred_eq_of_pos hn).symm⟩
  have hstep : sfEnter st =
      (st.nextPromiseId,
       { isRefreshing := true, refreshPromise := some st.nextPromiseId
         nextPromiseId := st.nextPromiseId + 1
         networkCalls := st.networkCalls + 1 }) := by
    unfold sfEnter
    rw [hidle]
  have hall : sfEnterN (m + 1) st =
      (st.nextPromiseId :: List.replicate m st.nextPromiseId,
       { isRefreshing := true, refreshPromise := some st.nextPromiseId
         nextPromiseId := st.nextPromiseId + 1
         networkCalls := st.networkCalls + 1 }) := by
    unfold sfEnterN
    rw [hstep]
    show (match sfEnterN m
        ({ isRefreshing := true, refreshPromise := some st.nextPromiseId
           nextPromiseId := st.nextPromiseId + 1
           networkCalls := st.networkCalls + 1 } : SFState) with
      | (ps, st2) => (st.nextPromiseId :: ps, st2)) = _
    rw [sfEnterN_inflight m st.nextPromiseId _ rfl rfl]
  rw [hall]
  exact ⟨rfl, rfl⟩

theorem singleFlight_one_network_call_witness :
    (sfEnterN 50 sfIdle).1 = List.replicate 50 0 ∧
    (sfEnterN 50 sfIdle).2.networkCalls = 1 :=
  singleFlight_one_network_call sfIdle 50 rfl (by decide)

end Veridian
